import Mathlib

-- Verification development for the `demo_company` example application
-- (`roles.py`, `workflow.py`, `simple_ui.py`, `huggingface_space/app.py`).
-- The third-party `crewai` objects that the code merely constructs and hands
-- off (Agent, Task, Crew) are modelled as records of the configuration the
-- repository passes in; `crew.kickoff()` — executed entirely by the external
-- library — is modelled as an explicit fallible parameter
-- `kick : Crew L → Except String String`, an exception being an `Except.error`
-- carrying the exception message (Python `str(e)`).

namespace crewai

/-- Model of `crewai.Agent` as the configuration record the repository passes
to the constructor: a persona (role, goal, backstory), an optional language
model handle of type `L`, and the two boolean flags used at every call site. -/
structure Agent (L : Type) where
  role : String
  goal : String
  backstory : String
  llm : Option L
  verbose : Bool
  allow_delegation : Bool
deriving DecidableEq

/-- Model of `crewai.Task`: a prompt template (description), an
expected-output description, an agent, and an optional list of earlier tasks
whose outputs are supplied as context (Python default `context=None` is
`none`). -/
inductive Task (L : Type) : Type where
  | mk (description : String) (expected_output : String) (agent : Agent L)
      (context : Option (List (Task L))) : Task L

def Task.description {L : Type} : Task L → String
  | .mk d _ _ _ => d

def Task.expected_output {L : Type} : Task L → String
  | .mk _ e _ _ => e

def Task.agent {L : Type} : Task L → Agent L
  | .mk _ _ a _ => a

def Task.context {L : Type} : Task L → Option (List (Task L))
  | .mk _ _ _ c => c

/-- Model of `crewai.Crew`: the agents and the ordered task list handed to the
external execution engine, plus the `verbose` level used at the call sites. -/
structure Crew (L : Type) where
  agents : List (Agent L)
  tasks : List (Task L)
  verbose : Nat

end crewai

-- ---------------------------------------------------------------------------
-- String helpers: Python substring containment and truthiness.
-- ---------------------------------------------------------------------------

/-- `strContains s pat` holds when `pat` occurs as a contiguous substring of
`s` (Python `pat in s`). -/
def strContains (s pat : String) : Prop := pat.data <:+: s.data

instance (s pat : String) : Decidable (strContains s pat) :=
  inferInstanceAs (Decidable (pat.data <:+: s.data))

/-- Python truthiness of an optional string: `None` and `""` are falsy. -/
def pyTruthy : Option String → Bool
  | none => false
  | some s => s != ""

/-- Python `a or b` on optional strings. -/
def py_or (a b : Option String) : Option String :=
  if pyTruthy a then a else b

/-- Python `a or d` where `d` is a (string) literal default. -/
def py_or_default (a : Option String) (d : String) : String :=
  match py_or a (some d) with
  | some s => s
  | none => d

/-- Python `dict.get(key, default)` over an association list, with an optional
key (`dict.get(None, default)` returns the default). -/
def dict_get (d : List (String × String)) (key : Option String) (dflt : String) : String :=
  match key with
  | none => dflt
  | some k => ( List.lookup k d).getD dflt

namespace demo_company

-- ---------------------------------------------------------------------------
-- roles.py
-- ---------------------------------------------------------------------------

namespace roles

namespace CompanyRoles

/-- `roles.py` `CompanyRoles.research_analyst`. -/
def research_analyst {L : Type} (llm : Option L) : crewai.Agent L :=
  { role := "Research Analyst"
    goal := "Gather accurate and comprehensive information on any given topic"
    backstory := "You are an expert research analyst with 10+ years of experience.\n            You excel at finding reliable sources, verifying facts, and synthesizing \n            complex information into clear insights. You always cite your sources and \n            distinguish between facts and opinions."
    llm := llm
    verbose := true
    allow_delegation := false }

/-- `roles.py` `CompanyRoles.content_writer`. -/
def content_writer {L : Type} (llm : Option L) : crewai.Agent L :=
  { role := "Content Writer"
    goal := "Create engaging, well-structured content that resonates with the target audience"
    backstory := "You are a professional content writer with expertise in \n            creating compelling narratives. You understand how to engage readers,\n            structure arguments effectively, and adapt your writing style to \n            different audiences and formats."
    llm := llm
    verbose := true
    allow_delegation := false }

/-- `roles.py` `CompanyRoles.seo_specialist`. -/
def seo_specialist {L : Type} (llm : Option L) : crewai.Agent L :=
  { role := "SEO Specialist"
    goal := "Optimize content for maximum search engine visibility and organic reach"
    backstory := "You are an SEO expert who understands search algorithms,\n            keyword research, and content optimization. You know how to balance \n            SEO requirements with readability and user experience."
    llm := llm
    verbose := true
    allow_delegation := false }

/-- `roles.py` `CompanyRoles.social_media_manager`. -/
def social_media_manager {L : Type} (llm : Option L) : crewai.Agent L :=
  { role := "Social Media Manager"
    goal := "Create compelling social media content that drives engagement"
    backstory := "You are a social media expert who understands platform-specific\n            best practices, audience psychology, and viral content patterns. You know\n            how to craft posts that generate engagement and conversions."
    llm := llm
    verbose := true
    allow_delegation := false }

/-- `roles.py` `CompanyRoles.qa_checker`. -/
def qa_checker {L : Type} (llm : Option L) : crewai.Agent L :=
  { role := "QA Checker"
    goal := "Ensure all content meets quality standards and is error-free"
    backstory := "You are a meticulous QA specialist with an eye for detail.\n            You catch grammatical errors, factual inconsistencies, and logical flaws.\n            You ensure every piece of content meets professional standards before \n            it goes live."
    llm := llm
    verbose := true
    allow_delegation := false }

end CompanyRoles

/-- An entry of `roles.py` `ROLE_HIERARCHY`. -/
structure RoleInfo where
  level : Nat
  reports_to : String
  delegates_to : List String

/-- `roles.py` `ROLE_HIERARCHY`. -/
def ROLE_HIERARCHY : List (String × RoleInfo) :=
  [("research_analyst", { level := 1, reports_to := "human_ceo", delegates_to := [] }),
   ("content_writer", { level := 2, reports_to := "human_editor", delegates_to := ["research_analyst"] }),
   ("seo_specialist", { level := 2, reports_to := "human_editor", delegates_to := ["content_writer"] }),
   ("social_media_manager", { level := 2, reports_to := "human_editor", delegates_to := ["content_writer"] }),
   ("qa_checker", { level := 3, reports_to := "human_editor", delegates_to := [] })]

/-- `roles.py` `WORKFLOWS`. -/
def WORKFLOWS : List (String × List String) :=
  [("article_creation", ["research_analyst", "content_writer", "seo_specialist", "qa_checker"]),
   ("social_media_campaign", ["research_analyst", "social_media_manager", "qa_checker"]),
   ("content_optimization", ["seo_specialist", "content_writer", "qa_checker"])]

end roles

-- ---------------------------------------------------------------------------
-- workflow.py
-- ---------------------------------------------------------------------------

namespace workflow

/-- The dictionary returned by `ContentAgency.create_article`. -/
structure ArticleDict where
  article : String
  topic : String
  audience : String
  word_count : Int

/-- The dictionary returned by `ContentAgency.create_social_campaign`. -/
structure SocialDict where
  posts : String
  topic : String
  platforms : List String

/-- The dictionary returned by `ContentAgency.optimize_content`. -/
structure OptimizeDict where
  optimized_content : String
  original_content : String

/-- `workflow.py` `ContentAgency`: the llm plus the five agents built by
`__init__`. -/
structure ContentAgency (L : Type) where
  llm : Option L
  researcher : crewai.Agent L
  writer : crewai.Agent L
  seo : crewai.Agent L
  social : crewai.Agent L
  qa : crewai.Agent L

namespace ContentAgency

/-- `ContentAgency.__init__`: each agent field is the corresponding
`CompanyRoles` constructor applied to `llm`. -/
def init {L : Type} (llm : Option L) : ContentAgency L :=
  { llm := llm
    researcher := roles.CompanyRoles.research_analyst llm
    writer := roles.CompanyRoles.content_writer llm
    seo := roles.CompanyRoles.seo_specialist llm
    social := roles.CompanyRoles.social_media_manager llm
    qa := roles.CompanyRoles.qa_checker llm }

/-- `create_article`, Task 1 (`research_task`). -/
def create_article_research_task {L : Type} (self : ContentAgency L)
    (topic target_audience : String) : crewai.Task L :=
  .mk ("Research the topic: " ++ topic ++ "\n            \n            Requirements:\n            - Find 5-7 key points about the topic\n            - Include relevant statistics or data\n            - Identify current trends or developments\n            - Note credible sources\n            \n            Target audience: " ++ target_audience)
    "A comprehensive research summary with key findings and sources"
    self.researcher
    none

/-- `create_article`, Task 2 (`writing_task`). -/
def create_article_writing_task {L : Type} (self : ContentAgency L)
    (topic target_audience : String) (word_count : Int) : crewai.Task L :=
  .mk ("Write a " ++ toString word_count ++ "-word article about: " ++ topic ++ "\n            \n            Requirements:\n            - Use the research findings\n            - Target audience: " ++ target_audience ++ "\n            - Include: introduction, main points, conclusion\n            - Make it engaging and easy to read\n            - Use active voice and clear language")
    ("A well-structured " ++ toString word_count ++ "-word article")
    self.writer
    (some [ create_article_research_task self topic target_audience])

/-- `create_article`, Task 3 (`seo_task`). -/
def create_article_seo_task {L : Type} (self : ContentAgency L)
    (topic target_audience : String) (word_count : Int) : crewai.Task L :=
  .mk "Optimize the article for SEO\n            \n            Requirements:\n            - Suggest 5-7 relevant keywords\n            - Recommend title variations\n            - Suggest meta description\n            - Identify internal linking opportunities\n            - Ensure content is search-friendly"
    "SEO recommendations and optimized version"
    self.seo
    (some [ create_article_writing_task self topic target_audience word_count])

/-- `create_article`, Task 4 (`qa_task`): note the context lists BOTH the
writing task and the seo task. -/
def create_article_qa_task {L : Type} (self : ContentAgency L)
    (topic target_audience : String) (word_count : Int) : crewai.Task L :=
  .mk "Review the article for quality\n            \n            Check for:\n            - Grammatical errors\n            - Factual accuracy\n            - Logical flow\n            - Readability\n            - Consistency\n            \n            Provide specific feedback if issues are found."
    "Quality assessment report and final version"
    self.qa
    (some [ create_article_writing_task self topic target_audience word_count,
            create_article_seo_task self topic target_audience word_count])

/-- The ordered task list `create_article` passes to the Crew. -/
def create_article_tasks {L : Type} (self : ContentAgency L)
    (topic target_audience : String) (word_count : Int) : List (crewai.Task L) :=
  [ create_article_research_task self topic target_audience,
    create_article_writing_task self topic target_audience word_count,
    create_article_seo_task self topic target_audience word_count,
    create_article_qa_task self topic target_audience word_count]

/-- The Crew built by `create_article`. -/
def create_article_crew {L : Type} (self : ContentAgency L)
    (topic target_audience : String) (word_count : Int) : crewai.Crew L :=
  { agents := [self.researcher, self.writer, self.seo, self.qa]
    tasks := create_article_tasks self topic target_audience word_count
    verbose := 2 }

/-- `ContentAgency.create_article`.  `kick` models the external
`crew.kickoff()`; if it raises, the exception propagates out of the method
before the result dictionary is built. -/
def create_article {L : Type} (self : ContentAgency L)
    (kick : crewai.Crew L → Except String String)
    (topic target_audience : String) (word_count : Int) : Except String ArticleDict :=
  let crew := create_article_crew self topic target_audience word_count
  match kick crew with
  | .error e => .error e
  | .ok result =>
      .ok { article := result, topic := topic, audience := target_audience,
            word_count := word_count }

/-- `create_social_campaign`'s resolution of the `platforms=None` default. -/
def resolve_platforms (platforms : Option (List String)) : List String :=
  match platforms with
  | none => ["twitter", "linkedin", "facebook"]
  | some ps => ps

/-- `create_social_campaign`, Task 1 (`research_task`). -/
def create_social_research_task {L : Type} (self : ContentAgency L)
    (topic : String) : crewai.Task L :=
  .mk ("Research the topic: " ++ topic ++ "\n            \n            Focus on:\n            - Current conversations and trends\n            - Engaging angles\n            - Key talking points\n            - Relevant hashtags")
    "Social media research summary"
    self.researcher
    none

/-- `create_social_campaign`, Task 2 (`social_task`), built from the resolved
platform list. -/
def create_social_social_task {L : Type} (self : ContentAgency L)
    (topic : String) (platforms : List String) : crewai.Task L :=
  .mk ("Create social media posts about: " ++ topic ++ "\n            \n            Create posts for: " ++ String.intercalate ", " platforms ++ "\n            \n            Requirements:\n            - Platform-specific format and length\n            - Engaging hooks\n            - Clear call-to-action\n            - Relevant hashtags\n            - Emojis where appropriate")
    ("Social media posts for " ++ toString platforms.length ++ " platforms")
    self.social
    (some [ create_social_research_task self topic])

/-- `create_social_campaign`, Task 3 (`qa_task`). -/
def create_social_qa_task {L : Type} (self : ContentAgency L)
    (topic : String) (platforms : List String) : crewai.Task L :=
  .mk "Review social posts\n            \n            Check for:\n            - Grammar and spelling\n            - Brand voice consistency\n            - Platform appropriateness\n            - Engagement potential"
    "Reviewed and approved social posts"
    self.qa
    (some [ create_social_social_task self topic platforms])

/-- The ordered task list `create_social_campaign` passes to the Crew (after
the `None` default has been resolved). -/
def create_social_tasks {L : Type} (self : ContentAgency L)
    (topic : String) (platforms : List String) : List (crewai.Task L) :=
  [ create_social_research_task self topic,
    create_social_social_task self topic platforms,
    create_social_qa_task self topic platforms]

/-- The Crew built by `create_social_campaign`. -/
def create_social_crew {L : Type} (self : ContentAgency L)
    (topic : String) (platforms : List String) : crewai.Crew L :=
  { agents := [self.researcher, self.social, self.qa]
    tasks := create_social_tasks self topic platforms
    verbose := 2 }

/-- `ContentAgency.create_social_campaign`; `platforms0` is the raw argument
(`none` models both an omitted argument and an explicit `None`). -/
def create_social_campaign {L : Type} (self : ContentAgency L)
    (kick : crewai.Crew L → Except String String)
    (topic : String) (platforms0 : Option (List String)) : Except String SocialDict :=
  let platforms := resolve_platforms platforms0
  let crew := create_social_crew self topic platforms
  match kick crew with
  | .error e => .error e
  | .ok result =>
      .ok { posts := result, topic := topic, platforms := platforms }

/-- `optimize_content`, Task 1 (`seo_task`). -/
def optimize_seo_task {L : Type} (self : ContentAgency L)
    (existing_content : String) : crewai.Task L :=
  .mk ("Analyze and optimize this content:\n            \n            " ++ existing_content ++ "\n            \n            Provide:\n            - SEO score (1-10)\n            - Keyword suggestions\n            - Content structure improvements\n            - Meta data recommendations")
    "SEO analysis and optimization plan"
    self.seo
    none

/-- `optimize_content`, Task 2 (`writing_task`). -/
def optimize_writing_task {L : Type} (self : ContentAgency L)
    (existing_content : String) : crewai.Task L :=
  .mk "Rewrite the content based on SEO recommendations\n            \n            Keep:\n            - Core message\n            - Key facts\n            \n            Improve:\n            - Structure\n            - Readability\n            - SEO optimization"
    "Optimized content version"
    self.writer
    (some [ optimize_seo_task self existing_content])

/-- `optimize_content`, Task 3 (`qa_task`). -/
def optimize_qa_task {L : Type} (self : ContentAgency L)
    (existing_content : String) : crewai.Task L :=
  .mk "Compare original and optimized versions\n            \n            Ensure:\n            - Message integrity\n            - Factual accuracy\n            - Quality improvements\n            - No errors introduced"
    "Final optimized content with comparison"
    self.qa
    (some [ optimize_writing_task self existing_content])

/-- The ordered task list `optimize_content` passes to the Crew. -/
def optimize_tasks {L : Type} (self : ContentAgency L)
    (existing_content : String) : List (crewai.Task L) :=
  [ optimize_seo_task self existing_content,
    optimize_writing_task self existing_content,
    optimize_qa_task self existing_content]

/-- The Crew built by `optimize_content`. -/
def optimize_crew {L : Type} (self : ContentAgency L)
    (existing_content : String) : crewai.Crew L :=
  { agents := [self.seo, self.writer, self.qa]
    tasks := optimize_tasks self existing_content
    verbose := 2 }

/-- `ContentAgency.optimize_content`. -/
def optimize_content {L : Type} (self : ContentAgency L)
    (kick : crewai.Crew L → Except String String)
    (existing_content : String) : Except String OptimizeDict :=
  let crew := optimize_crew self existing_content
  match kick crew with
  | .error e => .error e
  | .ok result =>
      .ok { optimized_content := result, original_content := existing_content }

end ContentAgency

/-- An entry of `workflow.py` `WORKFLOW_TEMPLATES`. -/
structure WorkflowTemplate where
  name : String
  description : String
  agents : List String
  estimated_time : String
  inputs : List (String × String)

/-- `workflow.py` `WORKFLOW_TEMPLATES`. -/
def WORKFLOW_TEMPLATES : List (String × WorkflowTemplate) :=
  [("create_article",
    { name := "Create Article"
      description := "Research, write, optimize, and QA check an article"
      agents := ["Research Analyst", "Content Writer", "SEO Specialist", "QA Checker"]
      estimated_time := "5-10 minutes"
      inputs := [("topic", "text"), ("target_audience", "text"), ("word_count", "number")] }),
   ("create_social_campaign",
    { name := "Social Media Campaign"
      description := "Create posts for multiple social platforms"
      agents := ["Research Analyst", "Social Media Manager", "QA Checker"]
      estimated_time := "3-5 minutes"
      inputs := [("topic", "text"), ("platforms", "multiselect")] }),
   ("optimize_content",
    { name := "Optimize Content"
      description := "Improve existing content for better SEO and readability"
      agents := ["SEO Specialist", "Content Writer", "QA Checker"]
      estimated_time := "3-5 minutes"
      inputs := [("existing_content", "textarea")] })]

end workflow

-- ---------------------------------------------------------------------------
-- langchain_huggingface configuration records (what the repository passes in)
-- ---------------------------------------------------------------------------

namespace langchain_huggingface

/-- The configuration the repository passes to
`langchain_huggingface.HuggingFaceEndpoint` (the `task` kwarg is only given in
`app.py`; Python's default is `None`). -/
structure HuggingFaceEndpoint where
  repo_id : String
  huggingfacehub_api_token : String
  task : Option String
  temperature : Float
  max_new_tokens : Nat

/-- The `ChatHuggingFace` wrapper used in `app.py`. -/
structure ChatHuggingFace where
  llm : HuggingFaceEndpoint

end langchain_huggingface

-- ---------------------------------------------------------------------------
-- simple_ui.py
-- ---------------------------------------------------------------------------

namespace simple_ui

/-- `simple_ui.py` `AVAILABLE_MODELS`. -/
def AVAILABLE_MODELS : List (String × String) :=
  [("Qwen2.5-3B (Fast, 8GB RAM)", "Qwen/Qwen2.5-3B-Instruct"),
   ("Qwen2.5-7B (Recommended)", "Qwen/Qwen2.5-7B-Instruct"),
   ("Qwen2.5-14B (High Quality)", "Qwen/Qwen2.5-14B-Instruct"),
   ("Qwen2.5-Coder-32B (Best Quality)", "Qwen/Qwen2.5-Coder-32B-Instruct")]

/-- `simple_ui.py` `DEFAULT_MODEL`. -/
def DEFAULT_MODEL : String := "Qwen/Qwen2.5-7B-Instruct"

/-- `simple_ui.py` `get_llm`: raises `ValueError` (modelled as `.error`) when
neither the `api_key` argument nor the `HUGGINGFACE_API_KEY` environment
variable (modelled as the explicit argument `env_HUGGINGFACE_API_KEY`) is
truthy. -/
def get_llm (model_id api_key env_HUGGINGFACE_API_KEY : Option String) :
    Except String langchain_huggingface.HuggingFaceEndpoint :=
  let hf_token := py_or api_key env_HUGGINGFACE_API_KEY
  if pyTruthy hf_token then
    let model := py_or_default model_id DEFAULT_MODEL
    .ok { repo_id := model
          huggingfacehub_api_token := hf_token.getD ""
          task := none
          temperature := 0.7
          max_new_tokens := 1024 }
  else
    .error "Please set HUGGINGFACE_API_KEY in Codespaces Secrets or .env file"

/-- The type of the module-level `agency` global in `simple_ui.py`. -/
abbrev AgencyState :=
  Option (demo_company.workflow.ContentAgency langchain_huggingface.HuggingFaceEndpoint)

/-- `simple_ui.py` `initialize_agency` (rendered here as `init_agency`): takes
the prior value of the `agency` global and returns the status string together
with the new value of the global.  The `try/except` makes the function total:
on failure the error message is returned and the global is left untouched. -/
def init_agency (agency : AgencyState) (model_name api_key : Option String)
    (env_HUGGINGFACE_API_KEY : Option String) : String × AgencyState :=
  let model_id := dict_get AVAILABLE_MODELS model_name DEFAULT_MODEL
  match get_llm (some model_id) ( if pyTruthy api_key then api_key else none)
      env_HUGGINGFACE_API_KEY with
  | .ok llm =>
      ("✅ Agency initialized with " ++ model_id ++ "!",
       some ( demo_company.workflow.ContentAgency.init (some llm)))
  | .error e => ("❌ Error: " ++ e, agency)

/-- `simple_ui.py` `create_article_ui`.  The `agency` global and the external
`crew.kickoff()` are explicit parameters; every exception raised inside the
`try` block (modelled by `kick` returning `.error`) is caught and rendered
into the output text. -/
def create_article_ui {L : Type}
    (agency : Option (demo_company.workflow.ContentAgency L))
    (kick : crewai.Crew L → Except String String)
    (topic audience : String) (word_count : Int) : String :=
  match agency with
  | none => "❌ Please initialize the agency first!"
  | some ag =>
      match demo_company.workflow.ContentAgency.create_article ag kick topic audience word_count with
      | .ok result =>
          "\n## ✅ Article Created Successfully!\n\n**Topic:** " ++ result.topic ++
          "\n**Target Audience:** " ++ result.audience ++
          "\n**Word Count:** " ++ toString result.word_count ++
          "\n\n---\n\n" ++ result.article ++ "\n"
      | .error e => "❌ Error: " ++ e

/-- `simple_ui.py` `create_social_ui`: splits the comma-separated platform
text box and strips each entry before invoking the workflow. -/
def create_social_ui {L : Type}
    (agency : Option (demo_company.workflow.ContentAgency L))
    (kick : crewai.Crew L → Except String String)
    (topic platforms : String) : String :=
  match agency with
  | none => "❌ Please initialize the agency first!"
  | some ag =>
      let platform_list := ( platforms.splitOn ",").map String.trim
      match demo_company.workflow.ContentAgency.create_social_campaign ag kick topic (some platform_list) with
      | .ok result =>
          "\n## ✅ Social Campaign Created!\n\n**Topic:** " ++ result.topic ++
          "\n**Platforms:** " ++ String.intercalate ", " result.platforms ++
          "\n\n---\n\n" ++ result.posts ++ "\n"
      | .error e => "❌ Error: " ++ e

/-- `simple_ui.py` `optimize_content_ui`. -/
def optimize_content_ui {L : Type}
    (agency : Option (demo_company.workflow.ContentAgency L))
    (kick : crewai.Crew L → Except String String)
    (content : String) : String :=
  match agency with
  | none => "❌ Please initialize the agency first!"
  | some ag =>
      match demo_company.workflow.ContentAgency.optimize_content ag kick content with
      | .ok result =>
          "\n## ✅ Content Optimized!\n\n### Original Content:\n" ++
          ( result.original_content.take 200) ++ "...\n\n---\n\n### Optimized Version:\n" ++
          result.optimized_content ++ "\n"
      | .error e => "❌ Error: " ++ e

end simple_ui

-- ---------------------------------------------------------------------------
-- huggingface_space/app.py (self-contained copy of the roles and the two
-- article/social workflows, with slightly different persona strings and no
-- internal blank-line indentation in the prompt templates)
-- ---------------------------------------------------------------------------

namespace huggingface_space

namespace CompanyRoles

/-- `app.py` `CompanyRoles.research_analyst`. -/
def research_analyst {L : Type} (llm : Option L) : crewai.Agent L :=
  { role := "Research Analyst"
    goal := "Gather comprehensive, accurate information on any topic"
    backstory := "You are an expert research analyst with years of experience\n            in gathering and synthesizing information from various sources. You excel\n            at finding relevant data, statistics, and insights that inform content creation."
    llm := llm
    verbose := true
    allow_delegation := false }

/-- `app.py` `CompanyRoles.content_writer`. -/
def content_writer {L : Type} (llm : Option L) : crewai.Agent L :=
  { role := "Content Writer"
    goal := "Create engaging, well-structured content that resonates with the target audience"
    backstory := "You are a skilled content writer with expertise in creating\n            compelling articles, blog posts, and marketing copy. You understand how to\n            adapt your writing style to different audiences and purposes."
    llm := llm
    verbose := true
    allow_delegation := false }

/-- `app.py` `CompanyRoles.seo_specialist`. -/
def seo_specialist {L : Type} (llm : Option L) : crewai.Agent L :=
  { role := "SEO Specialist"
    goal := "Optimize content for search engines while maintaining readability"
    backstory := "You are an SEO expert who understands search engine algorithms\n            and user behavior. You know how to identify keywords, optimize content structure,\n            and improve content visibility without sacrificing quality."
    llm := llm
    verbose := true
    allow_delegation := false }

/-- `app.py` `CompanyRoles.social_media_manager`. -/
def social_media_manager {L : Type} (llm : Option L) : crewai.Agent L :=
  { role := "Social Media Manager"
    goal := "Create engaging social media content that drives engagement"
    backstory := "You are a social media expert who understands different platforms\n            and their audiences. You create content that is platform-appropriate, engaging,\n            and drives meaningful interactions."
    llm := llm
    verbose := true
    allow_delegation := false }

/-- `app.py` `CompanyRoles.qa_checker`. -/
def qa_checker {L : Type} (llm : Option L) : crewai.Agent L :=
  { role := "QA Checker"
    goal := "Ensure all content meets quality standards before publication"
    backstory := "You are a meticulous quality assurance specialist who reviews\n            content for accuracy, grammar, consistency, and adherence to brand guidelines.\n            You have an eye for detail and ensure nothing subpar gets published."
    llm := llm
    verbose := true
    allow_delegation := false }

end CompanyRoles

/-- `app.py` `ContentAgency` (same shape as the `workflow.py` one). -/
structure ContentAgency (L : Type) where
  llm : Option L
  researcher : crewai.Agent L
  writer : crewai.Agent L
  seo : crewai.Agent L
  social : crewai.Agent L
  qa : crewai.Agent L

namespace ContentAgency

/-- `app.py` `ContentAgency.__init__`. -/
def init {L : Type} (llm : Option L) : ContentAgency L :=
  { llm := llm
    researcher := CompanyRoles.research_analyst llm
    writer := CompanyRoles.content_writer llm
    seo := CompanyRoles.seo_specialist llm
    social := CompanyRoles.social_media_manager llm
    qa := CompanyRoles.qa_checker llm }

/-- `app.py` `create_article`, Task 1 (`research_task`). -/
def create_article_research_task {L : Type} (self : ContentAgency L)
    (topic target_audience : String) : crewai.Task L :=
  .mk ("Research the topic: " ++ topic ++ "\n\n            Requirements:\n            - Find 5-7 key points about the topic\n            - Include relevant statistics or data\n            - Identify current trends or developments\n            - Note credible sources\n\n            Target audience: " ++ target_audience)
    "A comprehensive research summary with key findings and sources"
    self.researcher
    none

/-- `app.py` `create_article`, Task 2 (`writing_task`). -/
def create_article_writing_task {L : Type} (self : ContentAgency L)
    (topic target_audience : String) (word_count : Int) : crewai.Task L :=
  .mk ("Write a " ++ toString word_count ++ "-word article about: " ++ topic ++ "\n\n            Requirements:\n            - Use the research findings\n            - Target audience: " ++ target_audience ++ "\n            - Include: introduction, main points, conclusion\n            - Make it engaging and easy to read\n            - Use active voice and clear language")
    ("A well-structured " ++ toString word_count ++ "-word article")
    self.writer
    (some [ create_article_research_task self topic target_audience])

/-- `app.py` `create_article`, Task 3 (`seo_task`). -/
def create_article_seo_task {L : Type} (self : ContentAgency L)
    (topic target_audience : String) (word_count : Int) : crewai.Task L :=
  .mk "Optimize the article for SEO\n\n            Requirements:\n            - Suggest 5-7 relevant keywords\n            - Recommend title variations\n            - Suggest meta description\n            - Identify internal linking opportunities\n            - Ensure content is search-friendly"
    "SEO recommendations and optimized version"
    self.seo
    (some [ create_article_writing_task self topic target_audience word_count])

/-- `app.py` `create_article`, Task 4 (`qa_task`): the context again lists
both the writing task and the seo task. -/
def create_article_qa_task {L : Type} (self : ContentAgency L)
    (topic target_audience : String) (word_count : Int) : crewai.Task L :=
  .mk "Review the article for quality\n\n            Check for:\n            - Grammatical errors\n            - Factual accuracy\n            - Logical flow\n            - Readability\n            - Consistency\n\n            Provide specific feedback if issues are found."
    "Quality assessment report and final version"
    self.qa
    (some [ create_article_writing_task self topic target_audience word_count,
            create_article_seo_task self topic target_audience word_count])

/-- The ordered task list `app.py`'s `create_article` passes to the Crew. -/
def create_article_tasks {L : Type} (self : ContentAgency L)
    (topic target_audience : String) (word_count : Int) : List (crewai.Task L) :=
  [ create_article_research_task self topic target_audience,
    create_article_writing_task self topic target_audience word_count,
    create_article_seo_task self topic target_audience word_count,
    create_article_qa_task self topic target_audience word_count]

/-- The Crew built by `app.py`'s `create_article`. -/
def create_article_crew {L : Type} (self : ContentAgency L)
    (topic target_audience : String) (word_count : Int) : crewai.Crew L :=
  { agents := [self.researcher, self.writer, self.seo, self.qa]
    tasks := create_article_tasks self topic target_audience word_count
    verbose := 2 }

/-- `app.py` `ContentAgency.create_article`. -/
def create_article {L : Type} (self : ContentAgency L)
    (kick : crewai.Crew L → Except String String)
    (topic target_audience : String) (word_count : Int) :
    Except String demo_company.workflow.ArticleDict :=
  let crew := create_article_crew self topic target_audience word_count
  match kick crew with
  | .error e => .error e
  | .ok result =>
      .ok { article := result, topic := topic, audience := target_audience,
            word_count := word_count }

/-- `app.py` `create_social_campaign`, Task 1 (`research_task`). -/
def create_social_research_task {L : Type} (self : ContentAgency L)
    (topic : String) : crewai.Task L :=
  .mk ("Research the topic: " ++ topic ++ "\n\n            Focus on:\n            - Current conversations and trends\n            - Engaging angles\n            - Key talking points\n            - Relevant hashtags")
    "Social media research summary"
    self.researcher
    none

/-- `app.py` `create_social_campaign`, Task 2 (`social_task`). -/
def create_social_social_task {L : Type} (self : ContentAgency L)
    (topic : String) (platforms : List String) : crewai.Task L :=
  .mk ("Create social media posts about: " ++ topic ++ "\n\n            Create posts for: " ++ String.intercalate ", " platforms ++ "\n\n            Requirements:\n            - Platform-specific format and length\n            - Engaging hooks\n            - Clear call-to-action\n            - Relevant hashtags\n            - Emojis where appropriate")
    ("Social media posts for " ++ toString platforms.length ++ " platforms")
    self.social
    (some [ create_social_research_task self topic])

/-- `app.py` `create_social_campaign`, Task 3 (`qa_task`). -/
def create_social_qa_task {L : Type} (self : ContentAgency L)
    (topic : String) (platforms : List String) : crewai.Task L :=
  .mk "Review social posts\n\n            Check for:\n            - Grammar and spelling\n            - Brand voice consistency\n            - Platform appropriateness\n            - Engagement potential"
    "Reviewed and approved social posts"
    self.qa
    (some [ create_social_social_task self topic platforms])

/-- The ordered task list `app.py`'s `create_social_campaign` passes to the
Crew (after the `None` default has been resolved). -/
def create_social_tasks {L : Type} (self : ContentAgency L)
    (topic : String) (platforms : List String) : List (crewai.Task L) :=
  [ create_social_research_task self topic,
    create_social_social_task self topic platforms,
    create_social_qa_task self topic platforms]

/-- The Crew built by `app.py`'s `create_social_campaign`. -/
def create_social_crew {L : Type} (self : ContentAgency L)
    (topic : String) (platforms : List String) : crewai.Crew L :=
  { agents := [self.researcher, self.social, self.qa]
    tasks := create_social_tasks self topic platforms
    verbose := 2 }

/-- `app.py` `ContentAgency.create_social_campaign`. -/
def create_social_campaign {L : Type} (self : ContentAgency L)
    (kick : crewai.Crew L → Except String String)
    (topic : String) (platforms0 : Option (List String)) :
    Except String demo_company.workflow.SocialDict :=
  let platforms := demo_company.workflow.ContentAgency.resolve_platforms platforms0
  let crew := create_social_crew self topic platforms
  match kick crew with
  | .error e => .error e
  | .ok result =>
      .ok { posts := result, topic := topic, platforms := platforms }

end ContentAgency

/-- `app.py` `create_article_ui`. -/
def create_article_ui {L : Type}
    (agency : Option (ContentAgency L))
    (kick : crewai.Crew L → Except String String)
    (topic audience : String) (word_count : Int) : String :=
  match agency with
  | none => "Please initialize the agency first!"
  | some ag =>
      match ContentAgency.create_article ag kick topic audience word_count with
      | .ok result =>
          "\n## Article Created Successfully!\n\n**Topic:** " ++ result.topic ++
          "\n**Target Audience:** " ++ result.audience ++
          "\n**Word Count:** " ++ toString result.word_count ++
          "\n\n---\n\n" ++ result.article ++ "\n"
      | .error e => "Error: " ++ e

/-- `app.py` `create_social_ui`. -/
def create_social_ui {L : Type}
    (agency : Option (ContentAgency L))
    (kick : crewai.Crew L → Except String String)
    (topic platforms : String) : String :=
  match agency with
  | none => "Please initialize the agency first!"
  | some ag =>
      let platform_list := ( platforms.splitOn ",").map String.trim
      match ContentAgency.create_social_campaign ag kick topic (some platform_list) with
      | .ok result =>
          "\n## Social Campaign Created!\n\n**Topic:** " ++ result.topic ++
          "\n**Platforms:** " ++ String.intercalate ", " result.platforms ++
          "\n\n---\n\n" ++ result.posts ++ "\n"
      | .error e => "Error: " ++ e

end huggingface_space

end demo_company

-- ---------------------------------------------------------------------------
-- Concrete fixtures used by witnesses and counterexamples.
-- ---------------------------------------------------------------------------

open demo_company

/-- A concrete agency with no language model (`ContentAgency(llm=None)`). -/
def agencyU : workflow.ContentAgency Unit := workflow.ContentAgency.init none

/-- A concrete `app.py` agency with no language model. -/
def hfAgencyU : huggingface_space.ContentAgency Unit := huggingface_space.ContentAgency.init none

/-- A `crew.kickoff()` that succeeds with a fixed output. -/
def okKick : crewai.Crew Unit → Except String String := fun _ => Except.ok "RESULT"

/-- A `crew.kickoff()` that raises an exception with message `boom`. -/
def failKick : crewai.Crew Unit → Except String String := fun _ => Except.error "boom"

/-- The key-to-role mapping induced by the `CompanyRoles` constructors: each
`WORKFLOWS` entry names a constructor, and this map sends it to the `role`
string of the agent that constructor builds. -/
def constructor_role (k : String) : Option String :=
  List.lookup k
    [("research_analyst", ( roles.CompanyRoles.research_analyst (L := Unit) none).role),
     ("content_writer", ( roles.CompanyRoles.content_writer (L := Unit) none).role),
     ("seo_specialist", ( roles.CompanyRoles.seo_specialist (L := Unit) none).role),
     ("social_media_manager", ( roles.CompanyRoles.social_media_manager (L := Unit) none).role),
     ("qa_checker", ( roles.CompanyRoles.qa_checker (L := Unit) none).role)]

-- ---------------------------------------------------------------------------
-- Helper lemmas about string concatenation and containment.
-- ---------------------------------------------------------------------------

theorem str_data_append (s t : String) : (s ++ t).data = s.data ++ t.data := rfl

theorem strContains_refl (s : String) : strContains s s := List.infix_refl _

theorem strContains_append_left (t s pat : String) (h : strContains s pat) :
    strContains (t ++ s) pat := by
  unfold strContains at *
  rw [str_data_append]
  exact h.trans (List.suffix_append _ _).isInfix

theorem strContains_append_right (s t pat : String) (h : strContains s pat) :
    strContains (s ++ t) pat := by
  unfold strContains at *
  rw [str_data_append]
  exact h.trans (List.prefix_append _ _).isInfix

theorem str_ne_empty_of_data (s : String) (h : s.data ≠ []) : s ≠ "" := by
  intro hc
  apply h
  rw [hc]

theorem data_append_ne_nil_left (a b : String) (h : a.data ≠ []) : (a ++ b).data ≠ [] := by
  rw [str_data_append]
  intro hc
  exact h (List.append_eq_nil.mp hc).1

-- ---------------------------------------------------------------------------
-- C1
-- ---------------------------------------------------------------------------

/-- C1 (counterexample): at a concrete call of `create_article`, the fourth
task (`qa_task`) has TWO context predecessors — the writing task and the seo
task — not exactly one, refuting the claim that each task after the first has
exactly one context predecessor, namely the immediately preceding task. -/
theorem C1_counterexample :
    crewai.Task.context
        (workflow.ContentAgency.create_article_qa_task agencyU "AI" "general public" 500)
      = some [ workflow.ContentAgency.create_article_writing_task agencyU "AI" "general public" 500,
               workflow.ContentAgency.create_article_seo_task agencyU "AI" "general public" 500] ∧
    (( crewai.Task.context
        (workflow.ContentAgency.create_article_qa_task agencyU "AI" "general public" 500)).getD []).length ≠ 1 :=
  ⟨rfl, by decide⟩

/-- C1 (amended): for every call to `create_article` (in both `workflow.py`
and `huggingface_space/app.py`), the context dependencies follow the sequence
research → write → optimize → review, with the write task depending only on
the research task and the optimize (seo) task depending only on the write
task; the final review (qa) task however has exactly two context
predecessors, the write task and the optimize task. -/
theorem C1_article_dependency_graph {L : Type} (self : workflow.ContentAgency L)
    (hself : huggingface_space.ContentAgency L)
    (topic target_audience : String) (word_count : Int) :
    crewai.Task.context (workflow.ContentAgency.create_article_research_task self topic target_audience) = none ∧
    crewai.Task.context (workflow.ContentAgency.create_article_writing_task self topic target_audience word_count)
      = some [ workflow.ContentAgency.create_article_research_task self topic target_audience] ∧
    crewai.Task.context (workflow.ContentAgency.create_article_seo_task self topic target_audience word_count)
      = some [ workflow.ContentAgency.create_article_writing_task self topic target_audience word_count] ∧
    crewai.Task.context (workflow.ContentAgency.create_article_qa_task self topic target_audience word_count)
      = some [ workflow.ContentAgency.create_article_writing_task self topic target_audience word_count,
               workflow.ContentAgency.create_article_seo_task self topic target_audience word_count] ∧
    crewai.Task.context (huggingface_space.ContentAgency.create_article_research_task hself topic target_audience) = none ∧
    crewai.Task.context (huggingface_space.ContentAgency.create_article_writing_task hself topic target_audience word_count)
      = some [ huggingface_space.ContentAgency.create_article_research_task hself topic target_audience] ∧
    crewai.Task.context (huggingface_space.ContentAgency.create_article_seo_task hself topic target_audience word_count)
      = some [ huggingface_space.ContentAgency.create_article_writing_task hself topic target_audience word_count] ∧
    crewai.Task.context (huggingface_space.ContentAgency.create_article_qa_task hself topic target_audience word_count)
      = some [ huggingface_space.ContentAgency.create_article_writing_task hself topic target_audience word_count,
               huggingface_space.ContentAgency.create_article_seo_task hself topic target_audience word_count] :=
  ⟨rfl, rfl, rfl, rfl, rfl, rfl, rfl, rfl⟩

-- ---------------------------------------------------------------------------
-- C2
-- ---------------------------------------------------------------------------

/-- C2: `create_article` constructs exactly 4 tasks, `create_social_campaign`
exactly 3, and `optimize_content` exactly 3; the ordered task list each
method hands to its Crew is the fixed source-level sequence of task objects,
and its agent skeleton is the same constant list regardless of the input
values. -/
theorem C2_fixed_task_sequences {L : Type} (self : workflow.ContentAgency L)
    (topic target_audience existing_content : String) (word_count : Int)
    (platforms0 : Option (List String)) :
    (workflow.ContentAgency.create_article_tasks self topic target_audience word_count).length = 4 ∧
    (workflow.ContentAgency.create_article_crew self topic target_audience word_count).tasks
      = [ workflow.ContentAgency.create_article_research_task self topic target_audience,
          workflow.ContentAgency.create_article_writing_task self topic target_audience word_count,
          workflow.ContentAgency.create_article_seo_task self topic target_audience word_count,
          workflow.ContentAgency.create_article_qa_task self topic target_audience word_count] ∧
    (workflow.ContentAgency.create_social_tasks self topic
        (workflow.ContentAgency.resolve_platforms platforms0)).length = 3 ∧
    (workflow.ContentAgency.create_social_crew self topic
        (workflow.ContentAgency.resolve_platforms platforms0)).tasks
      = [ workflow.ContentAgency.create_social_research_task self topic,
          workflow.ContentAgency.create_social_social_task self topic
            (workflow.ContentAgency.resolve_platforms platforms0),
          workflow.ContentAgency.create_social_qa_task self topic
            (workflow.ContentAgency.resolve_platforms platforms0)] ∧
    (workflow.ContentAgency.optimize_tasks self existing_content).length = 3 ∧
    (workflow.ContentAgency.optimize_crew self existing_content).tasks
      = [ workflow.ContentAgency.optimize_seo_task self existing_content,
          workflow.ContentAgency.optimize_writing_task self existing_content,
          workflow.ContentAgency.optimize_qa_task self existing_content] ∧
    List.map crewai.Task.agent (workflow.ContentAgency.create_article_tasks self topic target_audience word_count)
      = [self.researcher, self.writer, self.seo, self.qa] ∧
    List.map crewai.Task.agent (workflow.ContentAgency.create_social_tasks self topic
        (workflow.ContentAgency.resolve_platforms platforms0))
      = [self.researcher, self.social, self.qa] ∧
    List.map crewai.Task.agent (workflow.ContentAgency.optimize_tasks self existing_content)
      = [self.seo, self.writer, self.qa] :=
  ⟨rfl, rfl, rfl, rfl, rfl, rfl, rfl, rfl, rfl⟩

-- ---------------------------------------------------------------------------
-- C3
-- ---------------------------------------------------------------------------

/-- C3: every UI wrapper catches every exception raised while the workflow
runs (modelled by the external kickoff returning `.error e`) and returns a
string containing the exception message `e` instead of propagating: the three
`simple_ui.py` wrappers render `❌ Error: {e}`, and the two `app.py` wrappers
render `Error: {e}`. -/
theorem C3_ui_error_surfacing {L : Type}
    (ag : workflow.ContentAgency L) (hag : huggingface_space.ContentAgency L)
    (kick : crewai.Crew L → Except String String)
    (topic audience platforms content : String) (word_count : Int) (e : String) :
    (workflow.ContentAgency.create_article ag kick topic audience word_count = .error e →
       simple_ui.create_article_ui (some ag) kick topic audience word_count = "❌ Error: " ++ e ∧
       strContains (simple_ui.create_article_ui (some ag) kick topic audience word_count) e) ∧
    (workflow.ContentAgency.create_social_campaign ag kick topic
        (some (( platforms.splitOn ",").map String.trim)) = .error e →
       simple_ui.create_social_ui (some ag) kick topic platforms = "❌ Error: " ++ e ∧
       strContains (simple_ui.create_social_ui (some ag) kick topic platforms) e) ∧
    (workflow.ContentAgency.optimize_content ag kick content = .error e →
       simple_ui.optimize_content_ui (some ag) kick content = "❌ Error: " ++ e ∧
       strContains (simple_ui.optimize_content_ui (some ag) kick content) e) ∧
    (huggingface_space.ContentAgency.create_article hag kick topic audience word_count = .error e →
       huggingface_space.create_article_ui (some hag) kick topic audience word_count = "Error: " ++ e ∧
       strContains (huggingface_space.create_article_ui (some hag) kick topic audience word_count) e) ∧
    (huggingface_space.ContentAgency.create_social_campaign hag kick topic
        (some (( platforms.splitOn ",").map String.trim)) = .error e →
       huggingface_space.create_social_ui (some hag) kick topic platforms = "Error: " ++ e ∧
       strContains (huggingface_space.create_social_ui (some hag) kick topic platforms) e) := by
  refine ⟨fun h => ?_, fun h => ?_, fun h => ?_, fun h => ?_, fun h => ?_⟩
  · have heq : simple_ui.create_article_ui (some ag) kick topic audience word_count
        = "❌ Error: " ++ e := by
      simp [simple_ui.create_article_ui, h]
    exact ⟨heq, heq ▸ strContains_append_left _ _ _ (strContains_refl e)⟩
  · have heq : simple_ui.create_social_ui (some ag) kick topic platforms
        = "❌ Error: " ++ e := by
      simp [simple_ui.create_social_ui, h]
    exact ⟨heq, heq ▸ strContains_append_left _ _ _ (strContains_refl e)⟩
  · have heq : simple_ui.optimize_content_ui (some ag) kick content
        = "❌ Error: " ++ e := by
      simp [simple_ui.optimize_content_ui, h]
    exact ⟨heq, heq ▸ strContains_append_left _ _ _ (strContains_refl e)⟩
  · have heq : huggingface_space.create_article_ui (some hag) kick topic audience word_count
        = "Error: " ++ e := by
      simp [huggingface_space.create_article_ui, h]
    exact ⟨heq, heq ▸ strContains_append_left _ _ _ (strContains_refl e)⟩
  · have heq : huggingface_space.create_social_ui (some hag) kick topic platforms
        = "Error: " ++ e := by
      simp [huggingface_space.create_social_ui, h]
    exact ⟨heq, heq ▸ strContains_append_left _ _ _ (strContains_refl e)⟩

/-- C3 witness: with a kickoff that raises `boom`, each of the five wrappers
returns the rendered error text. -/
theorem C3_witness :
    simple_ui.create_article_ui (some agencyU) failKick "t" "a" 5 = "❌ Error: " ++ "boom" ∧
    simple_ui.create_social_ui (some agencyU) failKick "t" "tw, li" = "❌ Error: " ++ "boom" ∧
    simple_ui.optimize_content_ui (some agencyU) failKick "c" = "❌ Error: " ++ "boom" ∧
    huggingface_space.create_article_ui (some hfAgencyU) failKick "t" "a" 5 = "Error: " ++ "boom" ∧
    huggingface_space.create_social_ui (some hfAgencyU) failKick "t" "tw, li" = "Error: " ++ "boom" :=
  ⟨((C3_ui_error_surfacing agencyU hfAgencyU failKick "t" "a" "tw, li" "c" 5 "boom").1 rfl).1,
   ((C3_ui_error_surfacing agencyU hfAgencyU failKick "t" "a" "tw, li" "c" 5 "boom").2.1 rfl).1,
   ((C3_ui_error_surfacing agencyU hfAgencyU failKick "t" "a" "tw, li" "c" 5 "boom").2.2.1 rfl).1,
   ((C3_ui_error_surfacing agencyU hfAgencyU failKick "t" "a" "tw, li" "c" 5 "boom").2.2.2.1 rfl).1,
   ((C3_ui_error_surfacing agencyU hfAgencyU failKick "t" "a" "tw, li" "c" 5 "boom").2.2.2.2 rfl).1⟩

-- ---------------------------------------------------------------------------
-- C4
-- ---------------------------------------------------------------------------

/-- C4: the human-readable configuration is mapped verbatim into the prompt
templates: the `create_article` research task description contains the topic
and the target audience; the writing task description contains the topic, the
target audience, and the decimal rendering of the word count; and for a
non-empty platform list the `create_social_campaign` social task description
contains the comma-joined platform names while its expected output states the
number of platforms. -/
theorem C4_template_mapping {L : Type} (self : workflow.ContentAgency L)
    (topic target_audience : String) (word_count : Int) (platforms : List String)
    (_hp : platforms ≠ []) :
    strContains ( crewai.Task.description
        (workflow.ContentAgency.create_article_research_task self topic target_audience)) topic ∧
    strContains ( crewai.Task.description
        (workflow.ContentAgency.create_article_research_task self topic target_audience)) target_audience ∧
    strContains ( crewai.Task.description
        (workflow.ContentAgency.create_article_writing_task self topic target_audience word_count)) topic ∧
    strContains ( crewai.Task.description
        (workflow.ContentAgency.create_article_writing_task self topic target_audience word_count)) target_audience ∧
    strContains ( crewai.Task.description
        (workflow.ContentAgency.create_article_writing_task self topic target_audience word_count)) (toString word_count) ∧
    strContains ( crewai.Task.description
        (workflow.ContentAgency.create_social_social_task self topic platforms))
      ( String.intercalate ", " platforms) ∧
    crewai.Task.expected_output (workflow.ContentAgency.create_social_social_task self topic platforms)
      = "Social media posts for " ++ toString platforms.length ++ " platforms" := by
  refine ⟨?_, ?_, ?_, ?_, ?_, ?_, rfl⟩ <;>
    simp only [workflow.ContentAgency.create_article_research_task,
      workflow.ContentAgency.create_article_writing_task,
      workflow.ContentAgency.create_social_social_task, crewai.Task.description]
  · exact strContains_append_right _ _ _ (strContains_append_right _ _ _
      (strContains_append_left _ _ _ (strContains_refl topic)))
  · exact strContains_append_left _ _ _ (strContains_refl target_audience)
  · exact strContains_append_right _ _ _ (strContains_append_right _ _ _
      (strContains_append_right _ _ _ (strContains_append_left _ _ _ (strContains_refl topic))))
  · exact strContains_append_right _ _ _ (strContains_append_left _ _ _
      (strContains_refl target_audience))
  · exact strContains_append_right _ _ _ (strContains_append_right _ _ _
      (strContains_append_right _ _ _ (strContains_append_right _ _ _
        (strContains_append_right _ _ _
          (strContains_append_left _ _ _ (strContains_refl (toString word_count)))))))
  · exact strContains_append_right _ _ _
      (strContains_append_left _ _ _ (strContains_refl ( String.intercalate ", " platforms)))

/-- C4 witness: the hypotheses hold and the containment is realised at a
concrete call. -/
theorem C4_witness :
    (["twitter"] : List String) ≠ [] ∧
    strContains ( crewai.Task.description
        (workflow.ContentAgency.create_article_research_task agencyU "AI" "devs")) "AI" :=
  ⟨by decide, (C4_template_mapping agencyU "AI" "devs" 500 ["twitter"] (by decide)).1⟩


-- ---------------------------------------------------------------------------
-- C5
-- ---------------------------------------------------------------------------

/-- C5: every task built by the three workflows carries a prompt description
and an expected-output description (both non-empty), its optional context
list names only tasks constructed earlier in the same workflow (each context
equals a sub-list of the strict prefix of the Crew's task list), and the
execution order handed to the Crew is the fixed source-level skeleton, not
computed from the inputs. -/
theorem C5_tasks_wellformed {L : Type} (self : workflow.ContentAgency L)
    (topic target_audience existing_content : String) (word_count : Int)
    (platforms : List String) :
    -- create_article: contexts reference only prior tasks
    crewai.Task.context (workflow.ContentAgency.create_article_research_task self topic target_audience) = none ∧
    crewai.Task.context (workflow.ContentAgency.create_article_writing_task self topic target_audience word_count)
      = some ( List.take 1 (workflow.ContentAgency.create_article_tasks self topic target_audience word_count)) ∧
    crewai.Task.context (workflow.ContentAgency.create_article_seo_task self topic target_audience word_count)
      = some [ workflow.ContentAgency.create_article_writing_task self topic target_audience word_count] ∧
    workflow.ContentAgency.create_article_writing_task self topic target_audience word_count
      ∈ List.take 2 (workflow.ContentAgency.create_article_tasks self topic target_audience word_count) ∧
    crewai.Task.context (workflow.ContentAgency.create_article_qa_task self topic target_audience word_count)
      = some ( List.take 3 (workflow.ContentAgency.create_article_tasks self topic target_audience word_count) |>.drop 1) ∧
    -- create_social_campaign: contexts reference only prior tasks
    crewai.Task.context (workflow.ContentAgency.create_social_research_task self topic) = none ∧
    crewai.Task.context (workflow.ContentAgency.create_social_social_task self topic platforms)
      = some ( List.take 1 (workflow.ContentAgency.create_social_tasks self topic platforms)) ∧
    crewai.Task.context (workflow.ContentAgency.create_social_qa_task self topic platforms)
      = some ( List.take 2 (workflow.ContentAgency.create_social_tasks self topic platforms) |>.drop 1) ∧
    -- optimize_content: contexts reference only prior tasks
    crewai.Task.context (workflow.ContentAgency.optimize_seo_task self existing_content) = none ∧
    crewai.Task.context (workflow.ContentAgency.optimize_writing_task self existing_content)
      = some ( List.take 1 (workflow.ContentAgency.optimize_tasks self existing_content)) ∧
    crewai.Task.context (workflow.ContentAgency.optimize_qa_task self existing_content)
      = some ( List.take 2 (workflow.ContentAgency.optimize_tasks self existing_content) |>.drop 1) ∧
    -- every task has a non-empty description and expected output
    (∀ t ∈ workflow.ContentAgency.create_article_tasks self topic target_audience word_count,
        crewai.Task.description t ≠ "" ∧ crewai.Task.expected_output t ≠ "") ∧
    (∀ t ∈ workflow.ContentAgency.create_social_tasks self topic platforms,
        crewai.Task.description t ≠ "" ∧ crewai.Task.expected_output t ≠ "") ∧
    (∀ t ∈ workflow.ContentAgency.optimize_tasks self existing_content,
        crewai.Task.description t ≠ "" ∧ crewai.Task.expected_output t ≠ "") ∧
    -- the execution order is the fixed source skeleton
    List.map crewai.Task.agent (workflow.ContentAgency.create_article_tasks self topic target_audience word_count)
      = [self.researcher, self.writer, self.seo, self.qa] ∧
    List.map crewai.Task.agent (workflow.ContentAgency.create_social_tasks self topic platforms)
      = [self.researcher, self.social, self.qa] ∧
    List.map crewai.Task.agent (workflow.ContentAgency.optimize_tasks self existing_content)
      = [self.seo, self.writer, self.qa] := by
  refine ⟨rfl, rfl, rfl, ?_, rfl, rfl, rfl, rfl, rfl, rfl, rfl, ?_, ?_, ?_, rfl, rfl, rfl⟩
  · exact List.mem_cons_of_mem _ (List.mem_cons_self _ _)
  · intro t ht
    simp only [workflow.ContentAgency.create_article_tasks, List.mem_cons,
      List.not_mem_nil, or_false] at ht
    rcases ht with rfl | rfl | rfl | rfl
    all_goals constructor
    all_goals
      simp only [workflow.ContentAgency.create_article_research_task,
        workflow.ContentAgency.create_article_writing_task,
        workflow.ContentAgency.create_article_seo_task,
        workflow.ContentAgency.create_article_qa_task,
        crewai.Task.description, crewai.Task.expected_output]
    all_goals
      refine str_ne_empty_of_data _ ?_
      repeat' apply data_append_ne_nil_left
      decide
  · intro t ht
    simp only [workflow.ContentAgency.create_social_tasks, List.mem_cons,
      List.not_mem_nil, or_false] at ht
    rcases ht with rfl | rfl | rfl
    all_goals constructor
    all_goals
      simp only [workflow.ContentAgency.create_social_research_task,
        workflow.ContentAgency.create_social_social_task,
        workflow.ContentAgency.create_social_qa_task,
        crewai.Task.description, crewai.Task.expected_output]
    all_goals
      refine str_ne_empty_of_data _ ?_
      repeat' apply data_append_ne_nil_left
      decide
  · intro t ht
    simp only [workflow.ContentAgency.optimize_tasks, List.mem_cons,
      List.not_mem_nil, or_false] at ht
    rcases ht with rfl | rfl | rfl
    all_goals constructor
    all_goals
      simp only [workflow.ContentAgency.optimize_seo_task,
        workflow.ContentAgency.optimize_writing_task,
        workflow.ContentAgency.optimize_qa_task,
        crewai.Task.description, crewai.Task.expected_output]
    all_goals
      refine str_ne_empty_of_data _ ?_
      repeat' apply data_append_ne_nil_left
      decide

/-- C5 witness: the membership fact and a non-emptiness fact are realised at
a concrete call. -/
theorem C5_witness :
    workflow.ContentAgency.create_article_writing_task agencyU "AI" "devs" 500
      ∈ List.take 2 (workflow.ContentAgency.create_article_tasks agencyU "AI" "devs" 500) ∧
    crewai.Task.description (workflow.ContentAgency.optimize_seo_task agencyU "c") ≠ "" :=
  ⟨(C5_tasks_wellformed agencyU "AI" "devs" "c" 500 ["twitter"]).2.2.2.1,
   (((C5_tasks_wellformed agencyU "AI" "devs" "c" 500 ["twitter"]).2.2.2.2.2.2.2.2.2.2.2.2.2.1)
     (workflow.ContentAgency.optimize_seo_task agencyU "c") (List.mem_cons_self _ _)).1⟩

-- ---------------------------------------------------------------------------
-- C6
-- ---------------------------------------------------------------------------

/-- C6: agent personas are static configuration: for every `llm` argument
(including `none`), each of the five `CompanyRoles` constructors — in both
`roles.py` and `app.py` — returns an agent whose role is the fixed string
shown, whose goal and backstory do not depend on `llm`, and which always has
`allow_delegation=False` and `verbose=True`. -/
theorem C6_agents_static {L : Type} (llm : Option L) :
    ( roles.CompanyRoles.research_analyst llm).role = "Research Analyst" ∧
    ( roles.CompanyRoles.research_analyst llm).goal = ( roles.CompanyRoles.research_analyst (none : Option L)).goal ∧
    ( roles.CompanyRoles.research_analyst llm).backstory = ( roles.CompanyRoles.research_analyst (none : Option L)).backstory ∧
    ( roles.CompanyRoles.research_analyst llm).allow_delegation = false ∧
    ( roles.CompanyRoles.research_analyst llm).verbose = true ∧
    ( roles.CompanyRoles.content_writer llm).role = "Content Writer" ∧
    ( roles.CompanyRoles.content_writer llm).goal = ( roles.CompanyRoles.content_writer (none : Option L)).goal ∧
    ( roles.CompanyRoles.content_writer llm).backstory = ( roles.CompanyRoles.content_writer (none : Option L)).backstory ∧
    ( roles.CompanyRoles.content_writer llm).allow_delegation = false ∧
    ( roles.CompanyRoles.content_writer llm).verbose = true ∧
    ( roles.CompanyRoles.seo_specialist llm).role = "SEO Specialist" ∧
    ( roles.CompanyRoles.seo_specialist llm).goal = ( roles.CompanyRoles.seo_specialist (none : Option L)).goal ∧
    ( roles.CompanyRoles.seo_specialist llm).backstory = ( roles.CompanyRoles.seo_specialist (none : Option L)).backstory ∧
    ( roles.CompanyRoles.seo_specialist llm).allow_delegation = false ∧
    ( roles.CompanyRoles.seo_specialist llm).verbose = true ∧
    ( roles.CompanyRoles.social_media_manager llm).role = "Social Media Manager" ∧
    ( roles.CompanyRoles.social_media_manager llm).goal = ( roles.CompanyRoles.social_media_manager (none : Option L)).goal ∧
    ( roles.CompanyRoles.social_media_manager llm).backstory = ( roles.CompanyRoles.social_media_manager (none : Option L)).backstory ∧
    ( roles.CompanyRoles.social_media_manager llm).allow_delegation = false ∧
    ( roles.CompanyRoles.social_media_manager llm).verbose = true ∧
    ( roles.CompanyRoles.qa_checker llm).role = "QA Checker" ∧
    ( roles.CompanyRoles.qa_checker llm).goal = ( roles.CompanyRoles.qa_checker (none : Option L)).goal ∧
    ( roles.CompanyRoles.qa_checker llm).backstory = ( roles.CompanyRoles.qa_checker (none : Option L)).backstory ∧
    ( roles.CompanyRoles.qa_checker llm).allow_delegation = false ∧
    ( roles.CompanyRoles.qa_checker llm).verbose = true ∧
    ( huggingface_space.CompanyRoles.research_analyst llm).role = "Research Analyst" ∧
    ( huggingface_space.CompanyRoles.research_analyst llm).goal = ( huggingface_space.CompanyRoles.research_analyst (none : Option L)).goal ∧
    ( huggingface_space.CompanyRoles.research_analyst llm).backstory = ( huggingface_space.CompanyRoles.research_analyst (none : Option L)).backstory ∧
    ( huggingface_space.CompanyRoles.research_analyst llm).allow_delegation = false ∧
    ( huggingface_space.CompanyRoles.research_analyst llm).verbose = true ∧
    ( huggingface_space.CompanyRoles.content_writer llm).role = "Content Writer" ∧
    ( huggingface_space.CompanyRoles.content_writer llm).goal = ( huggingface_space.CompanyRoles.content_writer (none : Option L)).goal ∧
    ( huggingface_space.CompanyRoles.content_writer llm).backstory = ( huggingface_space.CompanyRoles.content_writer (none : Option L)).backstory ∧
    ( huggingface_space.CompanyRoles.content_writer llm).allow_delegation = false ∧
    ( huggingface_space.CompanyRoles.content_writer llm).verbose = true ∧
    ( huggingface_space.CompanyRoles.seo_specialist llm).role = "SEO Specialist" ∧
    ( huggingface_space.CompanyRoles.seo_specialist llm).goal = ( huggingface_space.CompanyRoles.seo_specialist (none : Option L)).goal ∧
    ( huggingface_space.CompanyRoles.seo_specialist llm).backstory = ( huggingface_space.CompanyRoles.seo_specialist (none : Option L)).backstory ∧
    ( huggingface_space.CompanyRoles.seo_specialist llm).allow_delegation = false ∧
    ( huggingface_space.CompanyRoles.seo_specialist llm).verbose = true ∧
    ( huggingface_space.CompanyRoles.social_media_manager llm).role = "Social Media Manager" ∧
    ( huggingface_space.CompanyRoles.social_media_manager llm).goal = ( huggingface_space.CompanyRoles.social_media_manager (none : Option L)).goal ∧
    ( huggingface_space.CompanyRoles.social_media_manager llm).backstory = ( huggingface_space.CompanyRoles.social_media_manager (none : Option L)).backstory ∧
    ( huggingface_space.CompanyRoles.social_media_manager llm).allow_delegation = false ∧
    ( huggingface_space.CompanyRoles.social_media_manager llm).verbose = true ∧
    ( huggingface_space.CompanyRoles.qa_checker llm).role = "QA Checker" ∧
    ( huggingface_space.CompanyRoles.qa_checker llm).goal = ( huggingface_space.CompanyRoles.qa_checker (none : Option L)).goal ∧
    ( huggingface_space.CompanyRoles.qa_checker llm).backstory = ( huggingface_space.CompanyRoles.qa_checker (none : Option L)).backstory ∧
    ( huggingface_space.CompanyRoles.qa_checker llm).allow_delegation = false ∧
    ( huggingface_space.CompanyRoles.qa_checker llm).verbose = true := by
  refine ⟨?_, ?_, ?_, ?_, ?_, ?_, ?_, ?_, ?_, ?_, ?_, ?_, ?_, ?_, ?_, ?_, ?_, ?_, ?_, ?_,
    ?_, ?_, ?_, ?_, ?_, ?_, ?_, ?_, ?_, ?_, ?_, ?_, ?_, ?_, ?_, ?_, ?_, ?_, ?_, ?_,
    ?_, ?_, ?_, ?_, ?_, ?_, ?_, ?_, ?_, ?_⟩ <;> rfl

-- ---------------------------------------------------------------------------
-- C7
-- ---------------------------------------------------------------------------

/-- C7: the result dictionaries pass the input strings through unchanged:
whenever a workflow succeeds, `create_article` returns its topic, audience
and word count, `create_social_campaign` returns its topic and platform
list, and `optimize_content` returns the input content under
`original_content`. -/
theorem C7_result_dicts_pass_inputs {L : Type} (self : workflow.ContentAgency L)
    (kick : crewai.Crew L → Except String String)
    (topic target_audience existing_content : String) (word_count : Int)
    (platforms : List String)
    (a : workflow.ArticleDict) (s : workflow.SocialDict) (o : workflow.OptimizeDict) :
    (workflow.ContentAgency.create_article self kick topic target_audience word_count = .ok a →
       a.topic = topic ∧ a.audience = target_audience ∧ a.word_count = word_count) ∧
    (workflow.ContentAgency.create_social_campaign self kick topic (some platforms) = .ok s →
       s.topic = topic ∧ s.platforms = platforms) ∧
    (workflow.ContentAgency.optimize_content self kick existing_content = .ok o →
       o.original_content = existing_content) := by
  refine ⟨fun h => ?_, fun h => ?_, fun h => ?_⟩
  · simp only [workflow.ContentAgency.create_article] at h
    cases hk : kick (workflow.ContentAgency.create_article_crew self topic target_audience word_count) with
    | error e => rw [hk] at h; exact absurd h (by simp)
    | ok v => rw [hk] at h; cases h; exact ⟨rfl, rfl, rfl⟩
  · simp only [workflow.ContentAgency.create_social_campaign] at h
    cases hk : kick (workflow.ContentAgency.create_social_crew self topic
        (workflow.ContentAgency.resolve_platforms (some platforms))) with
    | error e => rw [hk] at h; exact absurd h (by simp)
    | ok v => rw [hk] at h; cases h; exact ⟨rfl, rfl⟩
  · simp only [workflow.ContentAgency.optimize_content] at h
    cases hk : kick (workflow.ContentAgency.optimize_crew self existing_content) with
    | error e => rw [hk] at h; exact absurd h (by simp)
    | ok v => rw [hk] at h; cases h; rfl

/-- C7 witness: with a succeeding kickoff the hypothesis holds by computation
and the returned dictionary echoes the inputs. -/
theorem C7_witness :
    workflow.ContentAgency.create_article agencyU okKick "t" "a" 5
      = Except.ok { article := "RESULT", topic := "t", audience := "a", word_count := 5 } ∧
    ({ article := "RESULT", topic := "t", audience := "a", word_count := 5 } : workflow.ArticleDict).topic = "t" :=
  ⟨rfl,
   ((C7_result_dicts_pass_inputs agencyU okKick "t" "a" "c" 5 ["x"]
      { article := "RESULT", topic := "t", audience := "a", word_count := 5 }
      { posts := "RESULT", topic := "t", platforms := ["x"] }
      { optimized_content := "RESULT", original_content := "c" }).1 rfl).1⟩

-- ---------------------------------------------------------------------------
-- C8
-- ---------------------------------------------------------------------------

/-- C8: the declarative workflow metadata agrees with the crews actually
constructed: for each of the three workflows, the ordered constructor list in
`WORKFLOWS` (read through the constructor-to-role map), the `agents` list in
`WORKFLOW_TEMPLATES`, and the roles of the agents in the Crew built by the
corresponding `ContentAgency` method are the same role list in the same
order. -/
theorem C8_metadata_agrees {L : Type} (llm : Option L)
    (topic target_audience existing_content : String) (word_count : Int)
    (platforms : List String) :
    List.map crewai.Agent.role
        (workflow.ContentAgency.create_article_crew (workflow.ContentAgency.init llm)
          topic target_audience word_count).agents
      = ["Research Analyst", "Content Writer", "SEO Specialist", "QA Checker"] ∧
    ( List.lookup "create_article" workflow.WORKFLOW_TEMPLATES).map workflow.WorkflowTemplate.agents
      = some ["Research Analyst", "Content Writer", "SEO Specialist", "QA Checker"] ∧
    ( List.lookup "article_creation" roles.WORKFLOWS).map (List.map constructor_role)
      = some [some "Research Analyst", some "Content Writer", some "SEO Specialist", some "QA Checker"] ∧
    List.map crewai.Agent.role
        (workflow.ContentAgency.create_social_crew (workflow.ContentAgency.init llm)
          topic platforms).agents
      = ["Research Analyst", "Social Media Manager", "QA Checker"] ∧
    ( List.lookup "create_social_campaign" workflow.WORKFLOW_TEMPLATES).map workflow.WorkflowTemplate.agents
      = some ["Research Analyst", "Social Media Manager", "QA Checker"] ∧
    ( List.lookup "social_media_campaign" roles.WORKFLOWS).map (List.map constructor_role)
      = some [some "Research Analyst", some "Social Media Manager", some "QA Checker"] ∧
    List.map crewai.Agent.role
        (workflow.ContentAgency.optimize_crew (workflow.ContentAgency.init llm)
          existing_content).agents
      = ["SEO Specialist", "Content Writer", "QA Checker"] ∧
    ( List.lookup "optimize_content" workflow.WORKFLOW_TEMPLATES).map workflow.WorkflowTemplate.agents
      = some ["SEO Specialist", "Content Writer", "QA Checker"] ∧
    ( List.lookup "content_optimization" roles.WORKFLOWS).map (List.map constructor_role)
      = some [some "SEO Specialist", some "Content Writer", some "QA Checker"] :=
  ⟨rfl, rfl, rfl, rfl, rfl, rfl, rfl, rfl, rfl⟩

-- ---------------------------------------------------------------------------
-- C9
-- ---------------------------------------------------------------------------

/-- C9: when `create_social_campaign` is called with `platforms` omitted or
`None`, the default list `['twitter', 'linkedin', 'facebook']` is used: the
social task's expected output then states posts for 3 platforms, and on
success the returned dictionary's `platforms` entry is exactly that
three-element list — in both `workflow.py` and `app.py`. -/
theorem C9_default_platforms {L : Type} (self : workflow.ContentAgency L)
    (hself : huggingface_space.ContentAgency L)
    (kick : crewai.Crew L → Except String String)
    (topic : String) (s hs : workflow.SocialDict) :
    crewai.Task.expected_output
        (workflow.ContentAgency.create_social_social_task self topic
          (workflow.ContentAgency.resolve_platforms none))
      = "Social media posts for 3 platforms" ∧
    (workflow.ContentAgency.create_social_campaign self kick topic none = .ok s →
       s.platforms = ["twitter", "linkedin", "facebook"]) ∧
    crewai.Task.expected_output
        (huggingface_space.ContentAgency.create_social_social_task hself topic
          (workflow.ContentAgency.resolve_platforms none))
      = "Social media posts for 3 platforms" ∧
    (huggingface_space.ContentAgency.create_social_campaign hself kick topic none = .ok hs →
       hs.platforms = ["twitter", "linkedin", "facebook"]) := by
  refine ⟨rfl, fun h => ?_, rfl, fun h => ?_⟩
  · simp only [workflow.ContentAgency.create_social_campaign] at h
    cases hk : kick (workflow.ContentAgency.create_social_crew self topic
        (workflow.ContentAgency.resolve_platforms none)) with
    | error e => rw [hk] at h; exact absurd h (by simp)
    | ok v => rw [hk] at h; cases h; rfl
  · simp only [huggingface_space.ContentAgency.create_social_campaign] at h
    cases hk : kick (huggingface_space.ContentAgency.create_social_crew hself topic
        (workflow.ContentAgency.resolve_platforms none)) with
    | error e => rw [hk] at h; exact absurd h (by simp)
    | ok v => rw [hk] at h; cases h; rfl

/-- C9 witness: at a concrete call with `platforms=None` and a succeeding
kickoff, the default list is returned. -/
theorem C9_witness :
    workflow.ContentAgency.create_social_campaign agencyU okKick "t" none
      = Except.ok { posts := "RESULT", topic := "t", platforms := ["twitter", "linkedin", "facebook"] } ∧
    ({ posts := "RESULT", topic := "t", platforms := ["twitter", "linkedin", "facebook"] } : workflow.SocialDict).platforms
      = ["twitter", "linkedin", "facebook"] :=
  ⟨rfl,
   (C9_default_platforms agencyU hfAgencyU okKick "t"
      { posts := "RESULT", topic := "t", platforms := ["twitter", "linkedin", "facebook"] }
      { posts := "RESULT", topic := "t", platforms := ["twitter", "linkedin", "facebook"] }).2.1 rfl⟩

-- ---------------------------------------------------------------------------
-- C10
-- ---------------------------------------------------------------------------

/-- C10: `initialize_agency` (embedded as the total function
`simple_ui.init_agency`, so it never raises) is atomic on failure: whenever
building the LLM raises — for example `get_llm`'s `ValueError` when neither
the argument nor the environment provides an API key — it returns an error
string and leaves the `agency` global exactly as it was; only on success is
the global replaced by a newly constructed `ContentAgency`. -/
theorem C10_init_agency_atomic
    (agency : simple_ui.AgencyState) (model_name api_key env : Option String)
    (e : String) (llm : langchain_huggingface.HuggingFaceEndpoint) :
    (simple_ui.get_llm
        (some ( dict_get simple_ui.AVAILABLE_MODELS model_name simple_ui.DEFAULT_MODEL))
        ( if pyTruthy api_key then api_key else none) env = .error e →
       simple_ui.init_agency agency model_name api_key env = ("❌ Error: " ++ e, agency)) ∧
    (simple_ui.get_llm
        (some ( dict_get simple_ui.AVAILABLE_MODELS model_name simple_ui.DEFAULT_MODEL))
        ( if pyTruthy api_key then api_key else none) env = .ok llm →
       simple_ui.init_agency agency model_name api_key env
         = ("✅ Agency initialized with " ++
              dict_get simple_ui.AVAILABLE_MODELS model_name simple_ui.DEFAULT_MODEL ++ "!",
            some ( workflow.ContentAgency.init (some llm)))) := by
  constructor
  · intro h
    simp only [simple_ui.init_agency, h]
  · intro h
    simp only [simple_ui.init_agency, h]

/-- C10 witness: with no API key argument and no environment key, `get_llm`
fails and a pre-existing agency value survives the call unchanged. -/
theorem C10_witness :
    simple_ui.init_agency (some ( workflow.ContentAgency.init none)) none none none
      = ("❌ Error: " ++ "Please set HUGGINGFACE_API_KEY in Codespaces Secrets or .env file",
         some ( workflow.ContentAgency.init none)) :=
  (C10_init_agency_atomic (some ( workflow.ContentAgency.init none)) none none none
      "Please set HUGGINGFACE_API_KEY in Codespaces Secrets or .env file"
      { repo_id := "", huggingfacehub_api_token := "", task := none,
        temperature := 0.7, max_new_tokens := 1024 }).1 rfl
